import Mathlib

/-!
Verification of the ADvisor Community Recommender / Audience Router
(`ADvisor/community_recommender.py`).

The module is pure: `score_community` maps (BrandMeta, CreativeFeatures,
AudienceCommunity) to a relevance score and a rationale string, and
`route_audiences` scores a whole community library, ranks it with a stable
descending sort, selects the top-N ids and builds a notes string.

Embedding conventions:
* Python floats are modelled as `ℚ`.  Every numeric constant in the module
  is a short decimal (0.6, 0.25, 0.75, ...) and all arithmetic on scores is
  exact at these values, so `ℚ` captures the intended real-number semantics.
* Python strings are `String`; `str.lower` / `str.capitalize` are modelled
  character-wise (the module only manipulates ASCII data).
* Python sets only ever matter through "distinct elements" and membership,
  so they are modelled by lists plus an order-preserving dedup.
-/

/-- Python `str.lower()` (character-wise, ASCII). -/
def pyLower (s : String) : String := String.mk (s.data.map Char.toLower)

/-- `listPrefixEq n t` is true when `n` is an initial segment of `t`. -/
def listPrefixEq : List Char → List Char → Bool
  | [], _ => true
  | _ :: _, [] => false
  | a :: as, b :: bs => a == b && listPrefixEq as bs

/-- Python `needle in hay` substring test. -/
def strContainsSub (hay needle : String) : Bool :=
  hay.data.tails.any (fun t => listPrefixEq needle.data t)

/-- Python `any(x in hay for x in needles)`. -/
def containsAny (hay : String) (needles : List String) : Bool :=
  needles.any (fun n => strContainsSub hay n)

/-- Helper of `pySplitWs`: split a character list at whitespace characters. -/
def splitWsAux : List Char → List Char → List (List Char)
  | [], acc => [acc.reverse]
  | c :: cs, acc =>
    if c.isWhitespace then acc.reverse :: splitWsAux cs []
    else splitWsAux cs (c :: acc)

/-- Python `str.split()` with no argument: split on whitespace runs,
dropping empty pieces. -/
def pySplitWs (s : String) : List String :=
  ((splitWsAux s.data []).map String.mk).filter (fun w => w != "")

/-- Python `sep.join(parts)`. -/
def joinSep (sep : String) : List String → String
  | [] => ""
  | [x] => x
  | x :: y :: xs => x ++ sep ++ joinSep sep (y :: xs)

/-- Python `str.capitalize()`: upper-case the first character and
lower-case every remaining character. -/
def pyCapitalize (s : String) : String :=
  match s.data with
  | [] => ""
  | c :: cs => String.mk (c.toUpper :: cs.map Char.toLower)

/-- Python `repr` of a list of (quote-free) strings, as interpolated by
`f"...{top_matches}..."`. -/
def pyReprStrList (l : List String) : String :=
  "[" ++ joinSep ", " (l.map (fun s => "\x27" ++ s ++ "\x27")) ++ "]"

/-- Remove duplicates keeping the first occurrence of each element. -/
def dedupFirst : List String → List String
  | [] => []
  | x :: xs => x :: (dedupFirst xs).filter (fun y => y != x)

/-- Python slice `l[:k]` for an arbitrary (possibly negative) integer `k`. -/
def pySliceTo {α : Type} (k : Int) (l : List α) : List α :=
  if k < 0 then l.take ((l.length : Int) + k).toNat else l.take k.toNat

/-- Nearest integer to `100 * q`, ties to even.  -/
def roundHundredthsHalfEven (q : ℚ) : Int :=
  let f := ⌊100 * q⌋
  let r := 100 * q - f
  if r < 1/2 then f
  else if 1/2 < r then f + 1
  else if f % 2 = 0 then f else f + 1

/-- `f"{q:.2f}"` for the nonnegative scores produced by this module
(round half to even, two fractional digits). -/
def fmtTwoDecimals (q : ℚ) : String :=
  let n := (roundHundredthsHalfEven q).toNat
  Nat.repr (n / 100) ++ "." ++ Nat.repr (n / 10 % 10) ++ Nat.repr (n % 10)

/-- `BrandMeta` dataclass: advertiser-declared facts about the product. -/
structure BrandMeta where
  product_name : String
  category : String
  price_positioning : String
  claimed_value_prop : String
  target_keywords : List String
deriving DecidableEq

/-- `CreativeFeatures` dataclass: extracted features of the ad creative. -/
structure CreativeFeatures where
  visual_style : String
  pacing : String
  cta_text : String
  sentiment_tone : String
  logo_presence_intensity : ℚ
  motion_intensity : ℚ
  audio_voice_profile : String
  themes : List String
  demographics_explicitly_shown : List String
deriving DecidableEq

/-- `AudienceCommunity` dataclass: one psychographic persona segment. -/
structure AudienceCommunity where
  id : String
  display_name : String
  descriptor : String
  decision_keywords : List String
  pain_points : List String
  price_sensitivity : String
  visual_preferences : List String
  preferred_energy : String := "any"
  agent_roles : List String := []
deriving DecidableEq

/-- `CommunityMatchResult` dataclass: one community scored against one ad. -/
structure CommunityMatchResult where
  community_id : String
  score : ℚ
  rationale : String
  agent_roles : List String
deriving DecidableEq

/-- `RoutingDecision` dataclass: the aggregate output of one routing call. -/
structure RoutingDecision where
  ranked_results : List CommunityMatchResult
  primary_communities : List String
  notes_for_agents : String
deriving DecidableEq

/-- The `ad_content_signals` set of `score_community`, as the list of added
elements in insertion order: lower-cased category, target keywords, themes,
demographics shown, value-prop words longer than 3 characters, plus the
synthetic `discount-offer` / `urgency` tags derived from the CTA text. -/
def adContentSignals (brand_meta : BrandMeta) (creative_features : CreativeFeatures) :
    List String :=
  [pyLower brand_meta.category]
    ++ brand_meta.target_keywords.map pyLower
    ++ creative_features.themes.map pyLower
    ++ creative_features.demographics_explicitly_shown.map pyLower
    ++ ((pySplitWs brand_meta.claimed_value_prop).filter (fun w => decide (3 < w.length))).map pyLower
    ++ (if containsAny (pyLower creative_features.cta_text)
          ["%", "off", "discount", "deal", "free", "sale"]
        then ["discount-offer"] else [])
    ++ (if containsAny (pyLower creative_features.cta_text)
          ["today", "now", "limited", "hurry", "expires"]
        then ["urgency"] else [])

/-- `community_keywords`: the community's lower-cased `decision_keywords`. -/
def communityKeywords (community : AudienceCommunity) : List String :=
  community.decision_keywords.map pyLower

/-- `content_matches`: the distinct elements of
`ad_content_signals & community_keywords` (empty when either side is empty). -/
def contentMatches (brand_meta : BrandMeta) (creative_features : CreativeFeatures)
    (community : AudienceCommunity) : List String :=
  if (adContentSignals brand_meta creative_features).isEmpty
      || (communityKeywords community).isEmpty then []
  else (dedupFirst (adContentSignals brand_meta creative_features)).filter
        (fun s => decide (s ∈ communityKeywords community))

/-- `content_score`: 1.0 / 0.75 / 0.4 / 0.0 by intersection size, 0.0 when
either the signal set or the keyword set is empty. -/
def contentScoreOf (brand_meta : BrandMeta) (creative_features : CreativeFeatures)
    (community : AudienceCommunity) : ℚ :=
  if (adContentSignals brand_meta creative_features).isEmpty
      || (communityKeywords community).isEmpty then 0.0
  else
    let n := ((dedupFirst (adContentSignals brand_meta creative_features)).filter
        (fun s => decide (s ∈ communityKeywords community))).length
    if 3 ≤ n then 1.0
    else if 2 ≤ n then 0.75
    else if n = 1 then 0.4
    else 0.0

/-- `prefs_str`: `' '.join(community.visual_preferences).lower()`. -/
def prefsStr (community : AudienceCommunity) : String :=
  pyLower (joinSep " " community.visual_preferences)

/-- Motion-intensity contribution to the vibe score, with its rationale
fragments.  The guard models Python's
`hasattr(community, 'preferred_energy') and community.preferred_energy`
(the attribute always exists, so only truthiness of the string remains). -/
def motionContrib (creative_features : CreativeFeatures) (community : AudienceCommunity) :
    ℚ × List String :=
  if community.preferred_energy ≠ "" then
    if community.preferred_energy = "high" ∧ 0.7 < creative_features.motion_intensity then
      (0.4, ["high motion matches high-energy community"])
    else if community.preferred_energy = "low" ∧ creative_features.motion_intensity < 0.3 then
      (0.4, ["calm/slow pacing matches low-energy community"])
    else if community.preferred_energy = "medium" ∧ 0.3 ≤ creative_features.motion_intensity
        ∧ creative_features.motion_intensity ≤ 0.7 then
      (0.3, ["moderate motion fits community"])
    else if community.preferred_energy = "any" then (0.2, [])
    else (0, [])
  else
    if strContainsSub (prefsStr community) "high energy"
        || strContainsSub (prefsStr community) "fast" then
      if 0.7 < creative_features.motion_intensity then
        (0.4, ["high motion matches community preference"])
      else (0, [])
    else if strContainsSub (prefsStr community) "calm"
        || strContainsSub (prefsStr community) "slow"
        || strContainsSub (prefsStr community) "minimal" then
      if creative_features.motion_intensity < 0.3 then
        (0.4, ["calm aesthetic matches community preference"])
      else (0, [])
    else (0, [])

/-- Sentiment-tone contribution to the vibe score: an if/elif chain over
the lower-cased `sentiment_tone`, each branch gated by `visual_preferences`
trigger words. -/
def sentimentContrib (creative_features : CreativeFeatures) (community : AudienceCommunity) :
    ℚ × List String :=
  if strContainsSub (pyLower creative_features.sentiment_tone) "urgent"
      || strContainsSub (pyLower creative_features.sentiment_tone) "scarcity" then
    if containsAny (prefsStr community) ["urgency", "deal", "discount", "fast"] then
      (0.3, ["urgent tone matches community responsiveness"])
    else (0, [])
  else if strContainsSub (pyLower creative_features.sentiment_tone) "calm"
      || strContainsSub (pyLower creative_features.sentiment_tone) "reassuring" then
    if containsAny (prefsStr community) ["calm", "mindful", "soothing", "gentle"] then
      (0.3, ["calm tone matches community vibe"])
    else (0, [])
  else if strContainsSub (pyLower creative_features.sentiment_tone) "empowering"
      || strContainsSub (pyLower creative_features.sentiment_tone) "aspirational" then
    if containsAny (prefsStr community) ["aspirational", "growth", "optimization", "premium"] then
      (0.3, ["aspirational tone matches community mindset"])
    else (0, [])
  else (0, [])

/-- Visual-style contribution to the vibe score. -/
def visualContrib (creative_features : CreativeFeatures) (community : AudienceCommunity) :
    ℚ × List String :=
  if strContainsSub (pyLower creative_features.visual_style) "minimal"
      || strContainsSub (pyLower creative_features.visual_style) "clean" then
    if containsAny (prefsStr community) ["minimal", "clean", "aesthetic", "design"] then
      (0.3, ["minimal design matches aesthetic preferences"])
    else (0, [])
  else if strContainsSub (pyLower creative_features.visual_style) "busy"
      || strContainsSub (pyLower creative_features.visual_style) "colorful" then
    if containsAny (prefsStr community) ["energetic", "vibrant", "bold", "loud"] then
      (0.3, ["bold visual style matches community taste"])
    else (0, [])
  else (0, [])

/-- `vibe_reasons`, in the order the source accumulates them. -/
def vibeReasons (creative_features : CreativeFeatures) (community : AudienceCommunity) :
    List String :=
  (motionContrib creative_features community).2
    ++ (sentimentContrib creative_features community).2
    ++ (visualContrib creative_features community).2

/-- `vibe_score`: sum of the three contributions, capped at 1.0. -/
def vibeScoreOf (creative_features : CreativeFeatures) (community : AudienceCommunity) : ℚ :=
  min ((motionContrib creative_features community).1
      + (sentimentContrib creative_features community).1
      + (visualContrib creative_features community).1) 1.0

/-- `price_map.get((brand.price_positioning.lower(), community.price_sensitivity.lower()), 0.5)`:
the fixed 3x3 price table with a 0.5 neutral default. -/
def priceScoreOf (price_positioning price_sensitivity : String) : ℚ :=
  if (pyLower price_positioning, pyLower price_sensitivity) = ("premium", "low") then 1.0
  else if (pyLower price_positioning, pyLower price_sensitivity) = ("premium", "medium") then 0.6
  else if (pyLower price_positioning, pyLower price_sensitivity) = ("premium", "high") then 0.2
  else if (pyLower price_positioning, pyLower price_sensitivity) = ("mid", "low") then 0.6
  else if (pyLower price_positioning, pyLower price_sensitivity) = ("mid", "medium") then 1.0
  else if (pyLower price_positioning, pyLower price_sensitivity) = ("mid", "high") then 0.6
  else if (pyLower price_positioning, pyLower price_sensitivity) = ("budget", "low") then 0.2
  else if (pyLower price_positioning, pyLower price_sensitivity) = ("budget", "medium") then 0.6
  else if (pyLower price_positioning, pyLower price_sensitivity) = ("budget", "high") then 1.0
  else 0.5

/-- `final_score = 0.60 * content_score + 0.25 * vibe_score + 0.15 * price_score`. -/
def finalScoreOf (brand_meta : BrandMeta) (creative_features : CreativeFeatures)
    (community : AudienceCommunity) : ℚ :=
  0.60 * contentScoreOf brand_meta creative_features community
    + 0.25 * vibeScoreOf creative_features community
    + 0.15 * priceScoreOf brand_meta.price_positioning community.price_sensitivity

/-- `price_desc.get(price_score, 'neutral')`. -/
def priceDescOf (price_score : ℚ) : String :=
  if price_score = 1.0 then "perfect price fit"
  else if price_score = 0.6 then "acceptable price match"
  else if price_score = 0.2 then "price mismatch"
  else "neutral"

/-- `rationale_parts`: content-match sentence, vibe sentence, price sentence. -/
def rationaleParts (brand_meta : BrandMeta) (creative_features : CreativeFeatures)
    (community : AudienceCommunity) : List String :=
  (if (contentMatches brand_meta creative_features community).isEmpty then
      ["No topical overlap with community interests"]
    else
      ["Content match on topics: "
        ++ pyReprStrList ((contentMatches brand_meta creative_features community).take 5)])
  ++ (if (vibeReasons creative_features community).isEmpty then
        ["Creative energy/style does not strongly align"]
      else
        ["Creative vibe: " ++ joinSep "; " (vibeReasons creative_features community)])
  ++ ["Price: "
      ++ priceDescOf (priceScoreOf brand_meta.price_positioning community.price_sensitivity)]

/-- `rationale = ". ".join(rationale_parts).capitalize() + f". (Score: {final_score:.2f})"`. -/
def rationaleOf (brand_meta : BrandMeta) (creative_features : CreativeFeatures)
    (community : AudienceCommunity) : String :=
  pyCapitalize (joinSep ". " (rationaleParts brand_meta creative_features community))
    ++ ". (Score: "
    ++ fmtTwoDecimals (finalScoreOf brand_meta creative_features community) ++ ")"

/-- `score_community(brand_meta, creative_features, community)`:
returns the pair `(raw score, rationale)`. -/
def score_community (brand_meta : BrandMeta) (creative_features : CreativeFeatures)
    (community : AudienceCommunity) : ℚ × String :=
  (finalScoreOf brand_meta creative_features community,
   rationaleOf brand_meta creative_features community)

/-- The `CommunityMatchResult` that `route_audiences` builds for one community. -/
def mkMatchResult (brand_meta : BrandMeta) (creative_features : CreativeFeatures)
    (community : AudienceCommunity) : CommunityMatchResult :=
  { community_id := community.id
    score := (score_community brand_meta creative_features community).1
    rationale := (score_community brand_meta creative_features community).2
    agent_roles := community.agent_roles }

/-- The ranking relation of `results.sort(key=lambda r: r.score, reverse=True)`:
`r1` may come before `r2` when its score is at least as large. -/
def scoreGE (r1 r2 : CommunityMatchResult) : Prop := r2.score ≤ r1.score

instance : DecidableRel scoreGE :=
  fun r1 r2 => inferInstanceAs (Decidable (r2.score ≤ r1.score))

/-- `route_audiences(brand_meta, creative_features, community_library, top_n)`.
Python's `list.sort` is a stable sort, and a stable sort is unique as a
function of the key order, so `List.insertionSort scoreGE` (stable for
`scoreGE`, see `filter_score_insertionSort`) models it exactly.
`results[:top_n]` is Python slicing, which for negative `top_n` drops
elements from the end (`pySliceTo`). -/
def route_audiences (brand_meta : BrandMeta) (creative_features : CreativeFeatures)
    (community_library : List AudienceCommunity) (top_n : Int) : RoutingDecision :=
  let results := community_library.map (mkMatchResult brand_meta creative_features)
  let ranked := List.insertionSort scoreGE results
  let primary := (pySliceTo top_n ranked).map (fun r => r.community_id)
  let notes :=
    if primary.isEmpty then
      "No strong community match found. Use generic feedback agents."
    else
      let selected := community_library.filter (fun c => primary.contains c.id)
      "Simulate feedback from these audience communities: "
        ++ joinSep ", " (selected.map (fun c => c.display_name))
        ++ ". Context: "
        ++ joinSep " | " (selected.map (fun c => c.descriptor))
  { ranked_results := ranked
    primary_communities := primary
    notes_for_agents := notes }

/-! ## Spec-side definitions (stated from the claims' words, for comparison) -/

/-- Modelled from the claim C4 wording: the fixed 3x3 table on the
lower-cased pair, every pair outside the nine tabulated ones yielding 0.5. -/
def priceTableSpec (price_positioning price_sensitivity : String) : ℚ :=
  match pyLower price_positioning, pyLower price_sensitivity with
  | "premium", "low" => 1.0
  | "premium", "medium" => 0.6
  | "premium", "high" => 0.2
  | "mid", "low" => 0.6
  | "mid", "medium" => 1.0
  | "mid", "high" => 0.6
  | "budget", "low" => 0.2
  | "budget", "medium" => 0.6
  | "budget", "high" => 1.0
  | _, _ => 0.5

/-- Modelled from the claim C7 wording: capitalize only the first letter,
leaving the remaining characters unchanged. -/
def capitalizeFirstOnlySpec (s : String) : String :=
  match s.data with
  | [] => ""
  | c :: cs => String.mk (c.toUpper :: cs)

/-! ## Concrete example inputs used by witnesses and counterexamples -/

/-- Example brand: category "x", premium positioning. -/
def exBrand : BrandMeta where
  product_name := "P"
  category := "x"
  price_positioning := "premium"
  claimed_value_prop := ""
  target_keywords := []

/-- Example creative: all features empty, medium motion. -/
def exCreative : CreativeFeatures where
  visual_style := ""
  pacing := ""
  cta_text := ""
  sentiment_tone := ""
  logo_presence_intensity := 0
  motion_intensity := 0.5
  audio_voice_profile := ""
  themes := []
  demographics_explicitly_shown := []

/-- Example community matching the example brand's category. -/
def exCommunity : AudienceCommunity where
  id := "cx"
  display_name := "Xers"
  descriptor := "dx"
  decision_keywords := ["x"]
  pain_points := []
  price_sensitivity := "low"
  visual_preferences := []
  preferred_energy := "any"
  agent_roles := ["r1"]

/-- Brand for the two-community ranking counterexamples. -/
def cexBrand : BrandMeta where
  product_name := "P"
  category := "x"
  price_positioning := ""
  claimed_value_prop := ""
  target_keywords := []

/-- Creative for the two-community ranking counterexamples. -/
def cexCreative : CreativeFeatures where
  visual_style := ""
  pacing := ""
  cta_text := ""
  sentiment_tone := ""
  logo_presence_intensity := 0
  motion_intensity := 0.5
  audio_voice_profile := ""
  themes := []
  demographics_explicitly_shown := []

/-- First community in library order; matches nothing (low score). -/
def comAlpha : AudienceCommunity where
  id := "a"
  display_name := "Alpha"
  descriptor := "da"
  decision_keywords := []
  pain_points := []
  price_sensitivity := ""
  visual_preferences := []
  preferred_energy := "x"
  agent_roles := []

/-- Second community in library order; matches the ad category (higher score). -/
def comBeta : AudienceCommunity where
  id := "b"
  display_name := "Beta"
  descriptor := "db"
  decision_keywords := ["x"]
  pain_points := []
  price_sensitivity := ""
  visual_preferences := []
  preferred_energy := "x"
  agent_roles := []

/-- Creative with a sentiment tone that satisfies both the urgent/scarcity
trigger words and the calm/reassuring trigger words. -/
def multiToneCreative : CreativeFeatures where
  visual_style := ""
  pacing := ""
  cta_text := ""
  sentiment_tone := "urgent calm tone"
  logo_presence_intensity := 0
  motion_intensity := 0.5
  audio_voice_profile := ""
  themes := []
  demographics_explicitly_shown := []

/-- Community with visual preferences containing trigger words of both
the urgent branch ("deal") and the calm branch ("calm"). -/
def multiPrefCommunity : AudienceCommunity where
  id := "cm"
  display_name := "Multi"
  descriptor := "dm"
  decision_keywords := []
  pain_points := []
  price_sensitivity := ""
  visual_preferences := ["deal", "calm"]
  preferred_energy := "x"
  agent_roles := []

/-! ## Claims -/

/-- Claim C4: for every brand and community the price sub-score equals the
fixed 3x3 table value for the lower-cased pair
(price_positioning, price_sensitivity), every pair outside the nine
tabulated ones yielding exactly 0.5. -/
theorem c4_price_table (b : BrandMeta) (com : AudienceCommunity) :
    priceScoreOf b.price_positioning com.price_sensitivity
      = priceTableSpec b.price_positioning com.price_sensitivity := by
  unfold priceScoreOf priceTableSpec
  split_ifs with h1 h2 h3 h4 h5 h6 h7 h8 h9 <;> simp_all [Prod.ext_iff]

/-- Claim C8: for every brand, creative and integer top_n, routing against
the empty community library returns the empty ranked list, the empty
primary list and the literal no-match notes string. -/
theorem c8_empty_library (b : BrandMeta) (cf : CreativeFeatures) (top_n : Int) :
    route_audiences b cf [] top_n
      = { ranked_results := []
          primary_communities := []
          notes_for_agents := "No strong community match found. Use generic feedback agents." } := by
  unfold route_audiences pySliceTo
  split <;> simp

/-- Claim C9: at most one sentiment-tone contribution of +0.3 enters the
vibe sub-score; the urgent/scarcity, calm/reassuring and
empowering/aspirational branches are checked in that order and only the
first branch whose sentiment trigger holds contributes, even when the
sentiment tone satisfies several branches' trigger words. -/
theorem c9_sentiment_first_match (cf : CreativeFeatures) (com : AudienceCommunity) :
    ((sentimentContrib cf com).1 = 0 ∨ (sentimentContrib cf com).1 = 0.3)
    ∧ ((strContainsSub (pyLower cf.sentiment_tone) "urgent"
          || strContainsSub (pyLower cf.sentiment_tone) "scarcity") = true →
        (sentimentContrib cf com).1
          = if containsAny (prefsStr com) ["urgency", "deal", "discount", "fast"]
            then (0.3 : ℚ) else 0)
    ∧ ((strContainsSub (pyLower cf.sentiment_tone) "urgent"
          || strContainsSub (pyLower cf.sentiment_tone) "scarcity") = false →
        (strContainsSub (pyLower cf.sentiment_tone) "calm"
          || strContainsSub (pyLower cf.sentiment_tone) "reassuring") = true →
        (sentimentContrib cf com).1
          = if containsAny (prefsStr com) ["calm", "mindful", "soothing", "gentle"]
            then (0.3 : ℚ) else 0)
    ∧ ((strContainsSub (pyLower cf.sentiment_tone) "urgent"
          || strContainsSub (pyLower cf.sentiment_tone) "scarcity") = false →
        (strContainsSub (pyLower cf.sentiment_tone) "calm"
          || strContainsSub (pyLower cf.sentiment_tone) "reassuring") = false →
        (strContainsSub (pyLower cf.sentiment_tone) "empowering"
          || strContainsSub (pyLower cf.sentiment_tone) "aspirational") = true →
        (sentimentContrib cf com).1
          = if containsAny (prefsStr com) ["aspirational", "growth", "optimization", "premium"]
            then (0.3 : ℚ) else 0) := by
  unfold sentimentContrib
  refine ⟨?_, ?_, ?_, ?_⟩ <;> intros <;> split_ifs <;> simp_all

/-- Witness for C9: a concrete creative whose sentiment tone triggers both
the urgent branch and the calm branch, against a community whose
preferences contain trigger words of both branches: the contribution is
a single 0.3, not 0.6. -/
theorem c9_sentiment_first_match_witness :
    (strContainsSub (pyLower multiToneCreative.sentiment_tone) "urgent"
      || strContainsSub (pyLower multiToneCreative.sentiment_tone) "scarcity") = true
    ∧ (strContainsSub (pyLower multiToneCreative.sentiment_tone) "calm"
      || strContainsSub (pyLower multiToneCreative.sentiment_tone) "reassuring") = true
    ∧ containsAny (prefsStr multiPrefCommunity) ["urgency", "deal", "discount", "fast"] = true
    ∧ containsAny (prefsStr multiPrefCommunity) ["calm", "mindful", "soothing", "gentle"] = true
    ∧ (sentimentContrib multiToneCreative multiPrefCommunity).1 = 0.3 := by
  refine ⟨by decide, by decide, by decide, by decide, ?_⟩
  have h := (c9_sentiment_first_match multiToneCreative multiPrefCommunity).2.1 (by decide)
  rw [if_pos (by decide)] at h
  exact h

/-- Claim C10: route_audiences is deterministic: any two invocations on
equal inputs return equal RoutingDecision values (same scores, rationales,
order, primary communities and notes). -/
theorem c10_deterministic (b1 b2 : BrandMeta) (cf1 cf2 : CreativeFeatures)
    (lib1 lib2 : List AudienceCommunity) (n1 n2 : Int)
    (hb : b1 = b2) (hc : cf1 = cf2) (hl : lib1 = lib2) (hn : n1 = n2) :
    route_audiences b1 cf1 lib1 n1 = route_audiences b2 cf2 lib2 n2 := by
  subst hb; subst hc; subst hl; subst hn; rfl

/-- Witness for C10 at a concrete input. -/
theorem c10_deterministic_witness :
    route_audiences exBrand exCreative [exCommunity] 2
      = route_audiences exBrand exCreative [exCommunity] 2 :=
  c10_deterministic exBrand exBrand exCreative exCreative [exCommunity] [exCommunity] 2 2
    rfl rfl rfl rfl

/-! ## Set-theoretic reading of the content intersection (for claim C5) -/

/-- Membership is preserved by `dedupFirst`. -/
theorem mem_dedupFirst (a : String) : ∀ l : List String, a ∈ dedupFirst l ↔ a ∈ l := by
  intro l
  induction l with
  | nil => simp [dedupFirst]
  | cons x xs ih =>
    simp only [dedupFirst, List.mem_cons, List.mem_filter, bne_iff_ne, ih]
    by_cases hax : a = x <;> simp [hax]

/-- `dedupFirst` produces a duplicate-free list. -/
theorem nodup_dedupFirst : ∀ l : List String, (dedupFirst l).Nodup := by
  intro l
  induction l with
  | nil => simp [dedupFirst]
  | cons x xs ih =>
    refine List.Nodup.cons ?_ (ih.filter _)
    simp [List.mem_filter]

/-- `dedupFirst` does not change the underlying finite set. -/
theorem toFinset_dedupFirst (l : List String) : (dedupFirst l).toFinset = l.toFinset := by
  ext a
  simp [List.mem_toFinset, mem_dedupFirst]

/-- The length of the deduplicated filtered signal list is the cardinality
of the set intersection. -/
theorem length_filter_mem_dedupFirst (l l2 : List String) :
    ((dedupFirst l).filter (fun s => decide (s ∈ l2))).length
      = (l.toFinset ∩ l2.toFinset).card := by
  have h1 : ((dedupFirst l).filter (fun s => decide (s ∈ l2))).Nodup :=
    (nodup_dedupFirst l).filter _
  rw [← List.toFinset_card_of_nodup h1, List.toFinset_filter, toFinset_dedupFirst]
  congr 1
  rw [← Finset.filter_mem_eq_inter]
  refine Finset.filter_congr ?_
  intro x _
  simp [List.mem_toFinset]

/-- Claim C5: the content sub-score is determined solely by the size `n` of
the intersection of the lower-cased ad content signal set with the
lower-cased decision-keyword set: `n >= 3` gives 1.0, `n = 2` gives 0.75,
`n = 1` gives 0.4, `n = 0` gives 0.0, and an empty side gives 0.0. -/
theorem c5_content_thresholds (b : BrandMeta) (cf : CreativeFeatures)
    (com : AudienceCommunity) :
    contentScoreOf b cf com
      = if (adContentSignals b cf).toFinset = ∅ ∨ (communityKeywords com).toFinset = ∅
        then 0.0
        else if 3 ≤ ((adContentSignals b cf).toFinset ∩ (communityKeywords com).toFinset).card
        then 1.0
        else if ((adContentSignals b cf).toFinset ∩ (communityKeywords com).toFinset).card = 2
        then 0.75
        else if ((adContentSignals b cf).toFinset ∩ (communityKeywords com).toFinset).card = 1
        then 0.4
        else 0.0 := by
  have hAB : (((adContentSignals b cf).isEmpty || (communityKeywords com).isEmpty) = true)
      ↔ ((adContentSignals b cf).toFinset = ∅ ∨ (communityKeywords com).toFinset = ∅) := by
    simp [List.isEmpty_iff, List.toFinset_eq_empty_iff]
  simp only [contentScoreOf, length_filter_mem_dedupFirst]
  refine if_congr hAB rfl ?_
  split_ifs <;> first | rfl | omega

/-! ## Score bounds (claim C6) -/

/-- The content sub-score lies in [0, 1]. -/
theorem contentScoreOf_bounds (b : BrandMeta) (cf : CreativeFeatures)
    (com : AudienceCommunity) :
    0 ≤ contentScoreOf b cf com ∧ contentScoreOf b cf com ≤ 1 := by
  simp only [contentScoreOf]
  split_ifs <;> norm_num

/-- The motion contribution lies in [0, 0.4]. -/
theorem motionContrib_bounds (cf : CreativeFeatures) (com : AudienceCommunity) :
    0 ≤ (motionContrib cf com).1 ∧ (motionContrib cf com).1 ≤ 0.4 := by
  simp only [motionContrib]
  split_ifs <;> norm_num

/-- The sentiment contribution lies in [0, 0.3]. -/
theorem sentimentContrib_bounds (cf : CreativeFeatures) (com : AudienceCommunity) :
    0 ≤ (sentimentContrib cf com).1 ∧ (sentimentContrib cf com).1 ≤ 0.3 := by
  simp only [sentimentContrib]
  split_ifs <;> norm_num

/-- The visual-style contribution lies in [0, 0.3]. -/
theorem visualContrib_bounds (cf : CreativeFeatures) (com : AudienceCommunity) :
    0 ≤ (visualContrib cf com).1 ∧ (visualContrib cf com).1 ≤ 0.3 := by
  simp only [visualContrib]
  split_ifs <;> norm_num

/-- The vibe sub-score lies in [0, 1]. -/
theorem vibeScoreOf_bounds (cf : CreativeFeatures) (com : AudienceCommunity) :
    0 ≤ vibeScoreOf cf com ∧ vibeScoreOf cf com ≤ 1 := by
  have hm := motionContrib_bounds cf com
  have hs := sentimentContrib_bounds cf com
  have hv := visualContrib_bounds cf com
  unfold vibeScoreOf
  constructor
  · exact le_min (by linarith [hm.1, hs.1, hv.1]) (by norm_num)
  · exact le_trans (min_le_right _ _) (by norm_num)

/-- The price sub-score lies in [0, 1]. -/
theorem priceScoreOf_bounds (bp cs : String) :
    0 ≤ priceScoreOf bp cs ∧ priceScoreOf bp cs ≤ 1 := by
  simp only [priceScoreOf]
  split_ifs <;> norm_num

/-- Claim C6: for every brand, creative and community with intensities in
[0, 1], the final score 0.60*content + 0.25*vibe + 0.15*price lies in
[0.0, 1.0]. -/
theorem c6_score_bounds (b : BrandMeta) (cf : CreativeFeatures) (com : AudienceCommunity)
    (hm0 : 0 ≤ cf.motion_intensity) (hm1 : cf.motion_intensity ≤ 1)
    (hl0 : 0 ≤ cf.logo_presence_intensity) (hl1 : cf.logo_presence_intensity ≤ 1) :
    0 ≤ (score_community b cf com).1 ∧ (score_community b cf com).1 ≤ 1 := by
  have hc := contentScoreOf_bounds b cf com
  have hv := vibeScoreOf_bounds cf com
  have hp := priceScoreOf_bounds b.price_positioning com.price_sensitivity
  simp only [score_community, finalScoreOf]
  constructor <;> nlinarith [hc.1, hc.2, hv.1, hv.2, hp.1, hp.2]

/-- Witness for C6 at a concrete input with in-range intensities. -/
theorem c6_score_bounds_witness :
    ((0:ℚ) ≤ exCreative.motion_intensity ∧ exCreative.motion_intensity ≤ 1
      ∧ (0:ℚ) ≤ exCreative.logo_presence_intensity ∧ exCreative.logo_presence_intensity ≤ 1)
    ∧ (0 ≤ (score_community exBrand exCreative exCommunity).1
        ∧ (score_community exBrand exCreative exCommunity).1 ≤ 1) := by
  have h1 : (0:ℚ) ≤ exCreative.motion_intensity := by norm_num [exCreative]
  have h2 : exCreative.motion_intensity ≤ 1 := by norm_num [exCreative]
  have h3 : (0:ℚ) ≤ exCreative.logo_presence_intensity := by norm_num [exCreative]
  have h4 : exCreative.logo_presence_intensity ≤ 1 := by norm_num [exCreative]
  exact ⟨⟨h1, h2, h3, h4⟩, c6_score_bounds exBrand exCreative exCommunity h1 h2 h3 h4⟩

/-! ## Sortedness and stability of the ranking (claim C1) -/

instance : IsTotal CommunityMatchResult scoreGE :=
  ⟨fun a b => le_total b.score a.score⟩

instance : IsTrans CommunityMatchResult scoreGE :=
  ⟨fun _ _ _ h1 h2 => le_trans h2 h1⟩

/-- Filtering one score class commutes with `orderedInsert`: the insert
lands strictly after every element of larger score, so inside its own
score class it stays in front (stability). -/
theorem filter_score_orderedInsert (v : ℚ) (x : CommunityMatchResult)
    (l : List CommunityMatchResult) :
    (List.orderedInsert scoreGE x l).filter (fun r => decide (r.score = v))
      = ((x :: l).filter (fun r => decide (r.score = v))) := by
  have hsplit : l.filter (fun r => decide (r.score = v))
      = (List.takeWhile (fun b => decide ¬ scoreGE x b) l).filter (fun r => decide (r.score = v))
        ++ (List.dropWhile (fun b => decide ¬ scoreGE x b) l).filter
            (fun r => decide (r.score = v)) := by
    rw [← List.filter_append, List.takeWhile_append_dropWhile]
  rw [List.orderedInsert_eq_take_drop, List.filter_append, List.filter_cons, List.filter_cons]
  by_cases hxb : decide (x.score = v) = true
  · rw [if_pos hxb, if_pos hxb]
    have hx : x.score = v := by simpa using hxb
    have htake : (List.takeWhile (fun b => decide ¬ scoreGE x b) l).filter
        (fun r => decide (r.score = v)) = [] := by
      rw [List.filter_eq_nil_iff]
      intro a ha
      have h2 := List.mem_takeWhile_imp ha
      simp only [decide_eq_true_eq, scoreGE] at h2 ⊢
      have hlt : x.score < a.score := lt_of_not_le h2
      intro hav
      rw [hav, ← hx] at hlt
      exact lt_irrefl _ hlt
    rw [htake, hsplit, htake]
    simp
  · rw [if_neg hxb, if_neg hxb]
    exact hsplit.symm

/-- Filtering one score class commutes with the whole stable sort: ties
keep their original (library) order. -/
theorem filter_score_insertionSort (v : ℚ) (l : List CommunityMatchResult) :
    (List.insertionSort scoreGE l).filter (fun r => decide (r.score = v))
      = l.filter (fun r => decide (r.score = v)) := by
  induction l with
  | nil => rfl
  | cons x xs ih =>
    simp only [List.insertionSort]
    rw [filter_score_orderedInsert, List.filter_cons, List.filter_cons, ih]

/-- Claim C1: for top_n >= 0 the ranked results are sorted non-increasing
by score, `primary_communities` is the ids of the first top_n ranked
entries (all of them once top_n reaches the library size), and the sort is
stable: each score class appears in library iteration order. -/
theorem c1_ranking (b : BrandMeta) (cf : CreativeFeatures) (lib : List AudienceCommunity)
    (top_n : Int) (h : 0 ≤ top_n) :
    List.Pairwise (fun r1 r2 => r2.score ≤ r1.score)
        (route_audiences b cf lib top_n).ranked_results
    ∧ (route_audiences b cf lib top_n).primary_communities
        = ((route_audiences b cf lib top_n).ranked_results.take top_n.toNat).map
            (fun r => r.community_id)
    ∧ ((lib.length : Int) ≤ top_n →
        (route_audiences b cf lib top_n).primary_communities
          = (route_audiences b cf lib top_n).ranked_results.map (fun r => r.community_id))
    ∧ ∀ v : ℚ,
        (route_audiences b cf lib top_n).ranked_results.filter (fun r => decide (r.score = v))
          = (lib.map (mkMatchResult b cf)).filter (fun r => decide (r.score = v)) := by
  have hlen : (List.insertionSort scoreGE (lib.map (mkMatchResult b cf))).length
      = lib.length := by
    rw [(List.perm_insertionSort scoreGE _).length_eq, List.length_map]
  simp only [route_audiences]
  refine ⟨List.sorted_insertionSort scoreGE _, ?_, ?_, ?_⟩
  · rw [pySliceTo, if_neg (not_lt.mpr h)]
  · intro hle
    rw [pySliceTo, if_neg (not_lt.mpr h), List.take_of_length_le]
    rw [hlen]
    omega
  · intro v
    exact filter_score_insertionSort v _

/-- Witness for C1 at a concrete two-community library with top_n = 2. -/
theorem c1_ranking_witness :
    (0:Int) ≤ 2
    ∧ List.Pairwise (fun r1 r2 => r2.score ≤ r1.score)
        (route_audiences cexBrand cexCreative [comAlpha, comBeta] 2).ranked_results
    ∧ (route_audiences cexBrand cexCreative [comAlpha, comBeta] 2).primary_communities
        = ((route_audiences cexBrand cexCreative [comAlpha, comBeta] 2).ranked_results.take
            (Int.toNat 2)).map (fun r => r.community_id)
    ∧ (route_audiences cexBrand cexCreative [comAlpha, comBeta] 2).ranked_results.filter
          (fun r => decide (r.score = 0))
        = ([comAlpha, comBeta].map (mkMatchResult cexBrand cexCreative)).filter
          (fun r => decide (r.score = 0)) := by
  have h := c1_ranking cexBrand cexCreative [comAlpha, comBeta] 2 (by decide)
  exact ⟨by decide, h.1, h.2.1, h.2.2.2 0⟩

/-- Claim C3 (amended): a negative top_n follows Python slice semantics
rather than clamping to 0: `primary_communities` holds the ids of the
first `max(len(library) + top_n, 0)` ranked entries, `ranked_results`
still contains every scored community, and the no-match notes string is
produced exactly when the primary selection is empty. -/
theorem c3_negative_top_n_slice (b : BrandMeta) (cf : CreativeFeatures)
    (lib : List AudienceCommunity) (top_n : Int) (h : top_n < 0) :
    (route_audiences b cf lib top_n).primary_communities
      = ((route_audiences b cf lib top_n).ranked_results.take
          ((lib.length : Int) + top_n).toNat).map (fun r => r.community_id)
    ∧ (route_audiences b cf lib top_n).ranked_results.Perm
        (lib.map (mkMatchResult b cf))
    ∧ ((route_audiences b cf lib top_n).primary_communities = [] →
        (route_audiences b cf lib top_n).notes_for_agents
          = "No strong community match found. Use generic feedback agents.") := by
  have hlen : (List.insertionSort scoreGE (lib.map (mkMatchResult b cf))).length
      = lib.length := by
    rw [(List.perm_insertionSort scoreGE _).length_eq, List.length_map]
  simp only [route_audiences]
  refine ⟨?_, List.perm_insertionSort scoreGE _, ?_⟩
  · rw [pySliceTo, if_pos h, hlen]
  · intro hp
    rw [hp]
    simp

/-- Counterexample for C3: with a two-community library and top_n = -1,
`primary_communities` is not empty (Python slicing keeps all but the last
entry), contradicting the claimed treat-as-0 behavior. -/
theorem c3_counterexample :
    (route_audiences cexBrand cexCreative [comAlpha, comBeta] (-1)).primary_communities
      ≠ [] := by
  intro hnil
  have hlen2 : (List.insertionSort scoreGE
      ([comAlpha, comBeta].map (mkMatchResult cexBrand cexCreative))).length = 2 := by
    rw [(List.perm_insertionSort scoreGE _).length_eq, List.length_map]
    rfl
  have hone : (route_audiences cexBrand cexCreative [comAlpha, comBeta] (-1)).primary_communities.length = 1 := by
    simp only [route_audiences]
    rw [List.length_map, pySliceTo, if_pos (by decide), List.length_take, hlen2]
    rfl
  rw [hnil] at hone
  simp at hone

/-- Witness for C3 (amended) at a concrete negative top_n. -/
theorem c3_negative_top_n_slice_witness :
    ((-1 : Int) < 0)
    ∧ (route_audiences exBrand exCreative [] (-1)).primary_communities
        = ((route_audiences exBrand exCreative [] (-1)).ranked_results.take
            ((List.length ([] : List AudienceCommunity) : Int) + (-1)).toNat).map
            (fun r => r.community_id)
    ∧ (route_audiences exBrand exCreative [] (-1)).ranked_results.Perm
        (([] : List AudienceCommunity).map (mkMatchResult exBrand exCreative))
    ∧ ((route_audiences exBrand exCreative [] (-1)).primary_communities = [] →
        (route_audiences exBrand exCreative [] (-1)).notes_for_agents
          = "No strong community match found. Use generic feedback agents.") := by
  have h := c3_negative_top_n_slice exBrand exCreative [] (-1) (by decide)
  exact ⟨by decide, h.1, h.2.1, h.2.2⟩

/-- Claim C2 (amended): when the primary selection is non-empty, the notes
string lists the selected communities in library iteration order (the code
filters the library by membership in `primary_communities`), not in rank
order: display names joined by ", " and descriptors joined by " | ". -/
theorem c2_notes_library_order (b : BrandMeta) (cf : CreativeFeatures)
    (lib : List AudienceCommunity) (top_n : Int)
    (h : (route_audiences b cf lib top_n).primary_communities ≠ []) :
    (route_audiences b cf lib top_n).notes_for_agents
      = "Simulate feedback from these audience communities: "
        ++ joinSep ", " ((lib.filter (fun c =>
              (route_audiences b cf lib top_n).primary_communities.contains c.id)).map
            (fun c => c.display_name))
        ++ ". Context: "
        ++ joinSep " | " ((lib.filter (fun c =>
              (route_audiences b cf lib top_n).primary_communities.contains c.id)).map
            (fun c => c.descriptor)) := by
  simp only [route_audiences] at h ⊢
  rw [if_neg]
  simp only [List.isEmpty_iff]
  exact h

/-- Witness for C2 (amended) at a concrete one-community library. -/
theorem c2_notes_library_order_witness :
    (route_audiences exBrand exCreative [exCommunity] 1).primary_communities ≠ []
    ∧ (route_audiences exBrand exCreative [exCommunity] 1).notes_for_agents
      = "Simulate feedback from these audience communities: "
        ++ joinSep ", " (([exCommunity].filter (fun c =>
              (route_audiences exBrand exCreative [exCommunity] 1).primary_communities.contains
                c.id)).map (fun c => c.display_name))
        ++ ". Context: "
        ++ joinSep " | " (([exCommunity].filter (fun c =>
              (route_audiences exBrand exCreative [exCommunity] 1).primary_communities.contains
                c.id)).map (fun c => c.descriptor)) :=
  ⟨by decide, c2_notes_library_order exBrand exCreative [exCommunity] 1 (by decide)⟩

/-- The ranked order of the two-community counterexample library: Beta
(score 0.315) ranks above Alpha (score 0.075). -/
theorem cex_sort_order :
    List.insertionSort scoreGE ([comAlpha, comBeta].map (mkMatchResult cexBrand cexCreative))
      = [mkMatchResult cexBrand cexCreative comBeta,
         mkMatchResult cexBrand cexCreative comAlpha] := by
  have hA : (score_community cexBrand cexCreative comAlpha).1 = 3/40 := by
    simp [score_community, finalScoreOf, contentScoreOf, adContentSignals, communityKeywords,
      pyLower, pySplitWs, splitWsAux, containsAny, strContainsSub, listPrefixEq, dedupFirst,
      vibeScoreOf, motionContrib, sentimentContrib, visualContrib, prefsStr, joinSep,
      priceScoreOf, cexBrand, cexCreative, comAlpha]
    norm_num [min_def]
  have hB : (score_community cexBrand cexCreative comBeta).1 = 63/200 := by
    simp [score_community, finalScoreOf, contentScoreOf, adContentSignals, communityKeywords,
      pyLower, pySplitWs, splitWsAux, containsAny, strContainsSub, listPrefixEq, dedupFirst,
      vibeScoreOf, motionContrib, sentimentContrib, visualContrib, prefsStr, joinSep,
      priceScoreOf, cexBrand, cexCreative, comBeta]
    norm_num [min_def]
  have hne : ¬ scoreGE (mkMatchResult cexBrand cexCreative comAlpha)
      (mkMatchResult cexBrand cexCreative comBeta) := by
    show ¬ ((score_community cexBrand cexCreative comBeta).1
        ≤ (score_community cexBrand cexCreative comAlpha).1)
    rw [hA, hB]
    norm_num
  simp only [List.map_cons, List.map_nil, List.insertionSort, List.orderedInsert]
  rw [if_neg hne]

/-- Counterexample for C2: at this input the ranking is [Beta, Alpha]
(`primary_communities = ["b", "a"]`), but the notes string lists the
communities in library order (Alpha first), not in primary order. -/
theorem c2_counterexample :
    (route_audiences cexBrand cexCreative [comAlpha, comBeta] 2).primary_communities
      = ["b", "a"]
    ∧ (route_audiences cexBrand cexCreative [comAlpha, comBeta] 2).notes_for_agents
      = "Simulate feedback from these audience communities: Alpha, Beta. Context: da | db"
    ∧ (route_audiences cexBrand cexCreative [comAlpha, comBeta] 2).notes_for_agents
      ≠ "Simulate feedback from these audience communities: Beta, Alpha. Context: db | da" := by
  have hord := cex_sort_order
  refine ⟨?_, ?_, ?_⟩ <;>
    · simp only [route_audiences, hord]
      decide

/-- Claim C7 (amended): the rationale is the three parts joined with ". ",
passed through Python `str.capitalize` - which upper-cases the first
character and lower-cases all remaining characters (not leaving them
unchanged) - followed by ". (Score: s)" with the final score at two
decimal places; the price descriptor is keyed by the exact price
sub-score value (1.0 / 0.6 / 0.2, else "neutral"). -/
theorem c7_rationale_structure (b : BrandMeta) (cf : CreativeFeatures)
    (com : AudienceCommunity) :
    (score_community b cf com).2
      = pyCapitalize (joinSep ". "
          ((if (contentMatches b cf com).isEmpty then
              ["No topical overlap with community interests"]
            else
              ["Content match on topics: "
                ++ pyReprStrList ((contentMatches b cf com).take 5)])
           ++ (if (vibeReasons cf com).isEmpty then
                ["Creative energy/style does not strongly align"]
              else
                ["Creative vibe: " ++ joinSep "; " (vibeReasons cf com)])
           ++ ["Price: "
              ++ (if priceScoreOf b.price_positioning com.price_sensitivity = 1.0 then
                    "perfect price fit"
                  else if priceScoreOf b.price_positioning com.price_sensitivity = 0.6 then
                    "acceptable price match"
                  else if priceScoreOf b.price_positioning com.price_sensitivity = 0.2 then
                    "price mismatch"
                  else "neutral")]))
        ++ ". (Score: " ++ fmtTwoDecimals ((score_community b cf com).1) ++ ")"
    ∧ pyCapitalize (joinSep ". " (rationaleParts b cf com))
      = (match (joinSep ". " (rationaleParts b cf com)).data with
         | [] => ""
         | c :: cs => String.mk (c.toUpper :: cs.map Char.toLower)) :=
  ⟨rfl, rfl⟩

/-- Counterexample for C7: at a concrete input the produced rationale has
"creative" and "price" lower-cased by `str.capitalize`, so it differs
from the claimed string whose characters after the first are unchanged. -/
theorem c7_counterexample :
    (score_community exBrand exCreative exCommunity).2
      = "Content match on topics: [\x27x\x27]. creative energy/style does not strongly align. price: perfect price fit. (Score: 0.44)"
    ∧ (score_community exBrand exCreative exCommunity).2
      ≠ capitalizeFirstOnlySpec (joinSep ". " (rationaleParts exBrand exCreative exCommunity))
          ++ ". (Score: "
          ++ fmtTwoDecimals ((score_community exBrand exCreative exCommunity).1) ++ ")" := by
  have hS : finalScoreOf exBrand exCreative exCommunity = 11/25 := by
    simp [finalScoreOf, contentScoreOf, adContentSignals, communityKeywords,
      pyLower, pySplitWs, splitWsAux, containsAny, strContainsSub, listPrefixEq, dedupFirst,
      vibeScoreOf, motionContrib, sentimentContrib, visualContrib, prefsStr, joinSep,
      priceScoreOf, exBrand, exCreative, exCommunity]
    norm_num [min_def]
  have hf : fmtTwoDecimals (finalScoreOf exBrand exCreative exCommunity) = "0.44" := by
    rw [hS]
    norm_num [fmtTwoDecimals, roundHundredthsHalfEven]
    decide
  have hP : priceScoreOf exBrand.price_positioning exCommunity.price_sensitivity = 1.0 := by
    simp [priceScoreOf, pyLower, exBrand, exCommunity]
  have hD : priceDescOf (priceScoreOf exBrand.price_positioning exCommunity.price_sensitivity)
      = "perfect price fit" := by
    rw [hP]
    simp [priceDescOf]
  have hR : (score_community exBrand exCreative exCommunity).2
      = "Content match on topics: [\x27x\x27]. creative energy/style does not strongly align. price: perfect price fit. (Score: 0.44)" := by
    simp only [score_community, rationaleOf]
    rw [hf]
    simp only [rationaleParts, hD]
    decide
  refine ⟨hR, ?_⟩
  rw [hR]
  simp only [score_community]
  rw [hf]
  simp only [rationaleParts, hD]
  decide
